import Mathlib

/-!
# Verification of `xlm-vanity-address-finder`

A shallow embedding of the core of `xlm-vanity-address-finder.go`: the query
validation, the worker generate-and-test loop with its scan counter, the
coordinator's select loop with its three shutdown triggers, the output-path
resolution, and the record/persist pipeline that merges the in-memory results
with the on-disk snapshot.

Strings are modelled at the rune level (`List Char` under `String`), matching
Go's `range` over a string and the `strings` package operations used by the
program.  ASCII case mapping stands in for Go's Unicode case mapping: every
string the program manipulates (Stellar addresses, the validated query, file
paths) is ASCII, where the two agree.
-/

namespace XlmVanity

/-- Rune-level uppercase, modelling `strings.ToUpper` (ASCII fragment). -/
def strToUpper (s : String) : String := ⟨s.data.map Char.toUpper⟩

/-- Rune-level lowercase, used to model `strings.EqualFold` (ASCII fragment). -/
def strToLower (s : String) : String := ⟨s.data.map Char.toLower⟩

/-- Models `strings.EqualFold(a, b)`: case-insensitive equality (ASCII fragment,
where simple folding coincides with lowercasing both sides). -/
def equalFold (a b : String) : Bool := strToLower a == strToLower b

/-- Models `strings.Contains(s, sub)`: `sub` occurs as a contiguous substring
of `s`. -/
def strContains (s sub : String) : Bool :=
  (List.range (s.data.length + 1)).any fun i => sub.data.isPrefixOf (s.data.drop i)

/-- Models `strings.HasPrefix(s, pre)`. -/
def hasPrefix (s pre : String) : Bool := pre.data.isPrefixOf s.data

/-- The `result` struct of the source: an address/seed pair that matched the
`-find` request (`Address string; Seed string`, JSON keys `address`/`seed`). -/
structure result where
  Address : String
  Seed : String
deriving Repr, DecidableEq

/-- Function `isAlphanumeric` of the source: ranges over the runes of `s` and returns
`false` at the first rune that is neither a letter nor a number
(`unicode.IsLetter` / `unicode.IsNumber`, ASCII fragment), else `true`. -/
def isAlphanumeric (s : String) : Bool :=
  s.data.all fun r => r.isAlpha || r.isDigit

/-- A generated keypair before testing: one `keypair.Random()` outcome
(`pair.Address()`, `pair.Seed()`). -/
structure Candidate where
  address : String
  seed : String
deriving Repr, DecidableEq

/-- The worker's match test, line 167/170 of the source:
`strings.Contains(pair.Address(), strings.ToUpper(find))` — the query is
uppercased, the address is used as generated. -/
def matchTest (address find : String) : Bool :=
  strContains address (strToUpper find)

/-- Phase of the worker's generate loop.  Each pass through the `default`
branch first executes `var pair, _ = keypair.Random()` (line 160) whose value
is immediately overwritten by the inner `for` initializer and never tested
(`discard`), then runs the inner generate-and-test loop (`testing`). -/
inductive Phase where
  | discard
  | testing
deriving Repr, DecidableEq

/-- One consumption of a `keypair.Random()` value by a worker, threading the
state (phase, scan counter, matches emitted so far).  In the `testing` phase,
a rejected candidate bumps the counter only when `quiet` is false (lines
166-173); a matching candidate is sent on the results channel as a `result`
(lines 183-186) and the worker returns to the top of the outer loop. -/
def workerStep (quiet : Bool) (find : String)
    (s : Phase × Nat × List result) (c : Candidate) : Phase × Nat × List result :=
  match s with
  | (Phase.discard, n, ms) => (Phase.testing, n, ms)
  | (Phase.testing, n, ms) =>
    if matchTest c.address find then
      (Phase.discard, n, ms ++ [⟨c.address, c.seed⟩])
    else
      (Phase.testing, if quiet then n else n + 1, ms)

/-- A worker run over a finite prefix of the random-candidate stream, starting
at the top of the outer loop with the counter at the given value.  This is the
regime in which every select round of the outer loop resolves to the `default`
branch (see `workerSelectCan`): none of the worker's exit channels is ready. -/
def workerRun (quiet : Bool) (find : String) (cands : List Candidate)
    (n : Nat) : Phase × Nat × List result :=
  cands.foldl (workerStep quiet find) (Phase.discard, n, [])

/-! ### The worker's select and the shared shutdown channels (lines 150-158)

Every worker's outer loop begins with
`select { case <-ctx.Done(): return; case <-watchdog: return;
case <-timer.C: return; default: ... }`.  The `watchdog` channel is the one
buffer-1 channel `signal.Notify` deposits a single value into per delivered
signal (lines 126-129), and `timer.C` likewise carries a single value when the
`-stop` timer fires; both are also selected on by the coordinator's central
loop, so each value goes to exactly one of the competing receivers. -/

/-- The cases of a worker's select, lines 150-158. -/
inductive WorkerCase where
  | ctxDone
  | watchdog
  | timerFired
  | generate
deriving Repr, DecidableEq

/-- Readiness of the three channels a worker's select (and the coordinator's
corresponding cases) receive on: the cancellation, the single buffered signal
value, the single deadline-timer value. -/
structure Ready where
  ctxDone : Bool
  signalQueued : Bool
  timerQueued : Bool
deriving Repr, DecidableEq

/-- Which cases a worker's select can resolve to, lines 150-158: a channel
case exactly when that channel is ready (Go's select picks among the ready
cases), and the `default` generate branch exactly when no channel case is
ready. -/
def workerSelectCan (r : Ready) : WorkerCase → Bool
  | WorkerCase.ctxDone => r.ctxDone
  | WorkerCase.watchdog => r.signalQueued
  | WorkerCase.timerFired => r.timerQueued
  | WorkerCase.generate => !r.ctxDone && !r.signalQueued && !r.timerQueued

/-- Effect of a worker's select taking `case <-watchdog: return` (line 154):
the single buffered signal value is consumed and the worker returns; the
worker writes no log line and the process does not exit. -/
def workerConsumesSignal (r : Ready) : Ready := { r with signalQueued := false }

/-- The coordinator's `case <-watchdog` (line 220) is ready exactly when the
buffer-1 channel still holds the signal value. -/
def coordWatchdogReady (r : Ready) : Bool := r.signalQueued

/-! ## Startup: query validation, worker spawning, output-path resolution -/

/-- Constant `defaultOutputPath = filepath.Join(".", "default.json")` of the
source (line 52).  Go's `filepath.Join` cleans its result, and
`Clean("./default.json")` is `"default.json"`. -/
def defaultOutputPath : String := "default.json"

/-- Go's `filepath.Join(".", s)` for the relative names the program joins
(`find + ".json"`): `Clean("./" + s)` drops the leading `./`. -/
def joinDot (s : String) : String := s

/-- Output-path resolution, lines 114-123 of `main`.  First, if the path does
not start with the OS path separator (`'/'` on this target) or does not start
with `"."`, `"./"` is prepended; then, if the result case-insensitively equals
`defaultOutputPath`, it is replaced by `filepath.Join(".", find + ".json")`. -/
def resolveOutputPath (output find : String) : String :=
  let output :=
    if ¬ hasPrefix output "/" ∨ ¬ hasPrefix output "." then "./" ++ output
    else output
  if equalFold output defaultOutputPath then joinDot (find ++ ".json")
  else output

/-- The worker-spawning loop, line 144: `for i := 0; i <= cores; i++` launches
one goroutine per iteration.  `spawnLoop i cores` counts the launches that
remain when the loop variable holds `i`. -/
def spawnLoop (i cores : Nat) : Nat :=
  if i ≤ cores then 1 + spawnLoop (i + 1) cores else 0
termination_by cores + 1 - i

/-- Number of worker goroutines `main` starts for a given `-cores` value. -/
def spawnedWorkers (cores : Nat) : Nat := spawnLoop 0 cores

/-- Outcome of startup: either `log.Fatalf` on an invalid `-find` value
(line 110-112, before the spawn loop at line 144 runs), or the run proceeds
with the spawned workers. -/
inductive StartupOutcome where
  | fatal
  | started (workers : Nat)
deriving Repr, DecidableEq

/-- Startup control flow of `main`: validate the query first; only when it is
alphanumeric does execution reach the worker-spawning loop. -/
def startup (find : String) (cores : Nat) : StartupOutcome :=
  if ¬ isAlphanumeric find then StartupOutcome.fatal
  else StartupOutcome.started (spawnedWorkers cores)

/-! ## Persistence: the `resultsCh` branch of the coordinator loop -/

/-- What `os.ReadFile(output)` followed by `json.Unmarshal` can observe of the
output file: the file is absent, the file exists but the process lacks
permission to open it, the file reads but holds malformed JSON, or it decodes
to a list of entries.  The first two both surface as `readErr != nil` in the
source. -/
inductive Disk where
  | absent
  | unreadable
  | malformed
  | stored (rs : List result)
deriving Repr, DecidableEq

/-- Whether `os.OpenFile(output, os.O_CREATE|os.O_RDWR, 0600)` at line 267
succeeds on a file in the given state: an absent file is created by
`O_CREATE`; a file the process lacks permission to read also fails the
read-write open, with the same permission error `os.ReadFile` reported; a
readable file opens whatever its content. -/
def openForWrite : Disk → Bool
  | Disk.absent => true
  | Disk.unreadable => false
  | Disk.malformed => true
  | Disk.stored _ => true

/-- The merge of on-disk entries into `results`, lines 250-259.  The outer
loop ranges over the on-disk entries; for each, an inner loop scans `results`
for a case-insensitively equal address, but its body is a bare `continue`,
which targets the inner loop and so has no effect on the outer body — the
append on line 257 runs for every on-disk entry.  The discarded `dup` value
records the inner loop's comparison. -/
def mergeExisting (results disk : List result) : List result :=
  if disk.length > 0 then
    disk.foldl
      (fun acc r =>
        let _dup := acc.any fun rr => equalFold r.Address rr.Address
        acc ++ [r])
      results
  else results

/-- The `xlmAddress, ok := <-resultsCh` branch with `ok = true`, lines
238-289: append the match to `results` under the lock; read the output file —
on any read error skip the merge, on malformed JSON `log.Fatal` (line 247),
otherwise merge the on-disk entries into `results`; marshal `results`; then
reopen the path with `O_CREATE|O_RDWR` — `log.Fatal(openErr)` at line 269 if
that fails — and write and close it (`log.Fatal` on either failure, a mere
report on a short write; neither failure mode is reachable in this model once
the open succeeded).  Returns the list that is both the new `results` and the
new file content, or `Except.error ()` for `log.Fatal`. -/
def handleMatch (results : List result) (disk : Disk) (m : result) :
    Except Unit (List result) :=
  let results := results ++ [m]
  let afterRead : Except Unit (List result) :=
    match disk with
    | Disk.absent => Except.ok results
    | Disk.unreadable => Except.ok results
    | Disk.malformed => Except.error ()
    | Disk.stored rs => Except.ok (mergeExisting results rs)
  match afterRead with
  | Except.error e => Except.error e
  | Except.ok merged =>
    if openForWrite disk then Except.ok merged else Except.error ()

/-- How many entries of `rs` carry an address case-insensitively equal to
`a`. -/
def countAddress (rs : List result) (a : String) : Nat :=
  rs.countP fun r => equalFold r.Address a

/-! ## The coordinator's central select loop (lines 197-298)

The loop is single-threaded; each iteration receives exactly one event from
one of its six sources.  We model one iteration as a step on the coordinator
state, and a run as a fold over the sequence of events received. -/

/-- The event sources of the `select` statement in `main`'s `for` loop. -/
inductive Event where
  | ctxDone
  | tick
  | watchdog
  | timerFired
  | doneSignal
  | chanClosed
  | matched (m : result)
deriving Repr, DecidableEq

/-- Coordinator state: the in-memory `results` slice, the observable state of
the output file, whether a value sits in the buffered `done` channel, and the
`log` lines emitted so far. -/
structure CoordState where
  results : List result
  disk : Disk
  doneQueued : Bool
  logLines : List String
deriving Repr, DecidableEq

/-- Result of one loop iteration: either the loop continues with a new state,
or the process ends with the given exit code (`return` from `main` is exit
code 0; `os.Exit(1)` is exit code 1; `log.Fatal` exits nonzero, recorded
as 1). -/
inductive StepOutcome where
  | next (s : CoordState)
  | exited (code : Nat) (s : CoordState)
deriving Repr, DecidableEq

/-- State of the process before `main`'s loop first runs, with the output file
in the given state. -/
def initState (disk : Disk) : CoordState :=
  { results := [], disk := disk, doneQueued := false, logLines := [] }

/-- One iteration of the coordinator's select loop:
* `ctx.Done()` — log (unless quiet) and `return` (exit 0);
* `ticker.C` — print the progress line; no state change;
* `watchdog` — log the termination request and `os.Exit(1)`;
* `timer.C` — log (unless quiet) and send into the buffered `done` channel;
* `done` — log (unless quiet) and `return` (exit 0);
* `resultsCh` closed — send into `done` and `continue`;
* `resultsCh` delivers a match — run the record/persist pipeline; `log.Fatal`
  inside it ends the process with a nonzero code. -/
def coordStep (quiet : Bool) (s : CoordState) : Event → StepOutcome
  | Event.ctxDone =>
    StepOutcome.exited 0
      { s with logLines := s.logLines ++ if quiet then [] else ["Finished context."] }
  | Event.tick => StepOutcome.next s
  | Event.watchdog =>
    StepOutcome.exited 1
      { s with logLines := s.logLines ++ ["Watchdog received termination request. Exiting..."] }
  | Event.timerFired =>
    StepOutcome.next
      { s with doneQueued := true
               logLines := s.logLines ++ if quiet then [] else ["Timer reached limit."] }
  | Event.doneSignal =>
    StepOutcome.exited 0
      { s with logLines := s.logLines ++ if quiet then [] else ["Finished running!"] }
  | Event.chanClosed => StepOutcome.next { s with doneQueued := true }
  | Event.matched m =>
    match handleMatch s.results s.disk m with
    | Except.error _ => StepOutcome.exited 1 s
    | Except.ok merged =>
      StepOutcome.next { s with results := merged, disk := Disk.stored merged }

/-- A run of the coordinator loop over a finite sequence of received events,
stopping at the first exiting iteration. -/
def coordRun (quiet : Bool) (s : CoordState) : List Event → StepOutcome
  | [] => StepOutcome.next s
  | e :: es =>
    match coordStep quiet s e with
    | StepOutcome.next s' => coordRun quiet s' es
    | StepOutcome.exited c s' => StepOutcome.exited c s'

/-! ## Helper lemmas -/

/-- The spawn loop `for i := 0; i <= cores; i++` runs `cores + 1 - i` more
times from loop index `i`. -/
theorem spawnLoop_eq (i cores : Nat) : spawnLoop i cores = cores + 1 - i := by
  rw [spawnLoop]
  by_cases h : i ≤ cores
  · rw [if_pos h, spawnLoop_eq (i + 1) cores]
    omega
  · rw [if_neg h]
    omega
termination_by cores + 1 - i

/-- In quiet mode a single worker step never changes the scan counter. -/
theorem workerStep_quiet_counter (find : String) (s : Phase × Nat × List result)
    (c : Candidate) : ((workerStep true find s c).2.1) = s.2.1 := by
  rcases s with ⟨ph, n, ms⟩
  cases ph
  · rfl
  · simp only [workerStep]
    split
    · rfl
    · rfl

/-- In quiet mode the whole generate loop never changes the scan counter. -/
theorem foldl_quiet_counter (find : String) :
    ∀ (cands : List Candidate) (s : Phase × Nat × List result),
      ((cands.foldl (workerStep true find) s).2.1) = s.2.1 := by
  intro cands
  induction cands with
  | nil => intro s; rfl
  | cons c cs ih =>
    intro s
    rw [List.foldl_cons, ih (workerStep true find s c), workerStep_quiet_counter]

/-- Every string contains the empty substring. -/
theorem strContains_empty (s : String) : strContains s "" = true := by
  unfold strContains
  rw [List.any_eq_true]
  refine ⟨0, List.mem_range.mpr (by omega), ?_⟩
  have h : ("" : String).data = [] := rfl
  rw [h, List.drop_zero]
  cases s.data <;> rfl

/-! ## Claim theorems -/

/-- C1: the claim says the on-disk file holds each recorded Address at most
once after every persist.  The code violates it: the duplicate-scan's
`continue` targets the inner loop, so every on-disk entry is re-appended.
Recording the same match twice (file absent on the first persist, holding that
one entry on the second) leaves the file with the address three times. -/
theorem c1_persist_duplicates_address :
    handleMatch [] Disk.absent ⟨"GABC", "SXYZ"⟩ = Except.ok [⟨"GABC", "SXYZ"⟩] ∧
    handleMatch [⟨"GABC", "SXYZ"⟩] (Disk.stored [⟨"GABC", "SXYZ"⟩]) ⟨"GABC", "SXYZ"⟩ =
      Except.ok [⟨"GABC", "SXYZ"⟩, ⟨"GABC", "SXYZ"⟩, ⟨"GABC", "SXYZ"⟩] ∧
    countAddress [⟨"GABC", "SXYZ"⟩, ⟨"GABC", "SXYZ"⟩, ⟨"GABC", "SXYZ"⟩] "GABC" = 3 :=
  ⟨rfl, rfl, rfl⟩

/-- C2: when the deadline timer fires after a run that produced no match (the
loop saw only report ticks), the coordinator queues the internal done marker
and, on receiving it, exits the read loop gracefully with exit code 0, the
output file never having been written. -/
theorem c2_deadline_graceful_exit (pre : List Event)
    (h : ∀ e ∈ pre, e = Event.tick) :
    coordRun false (initState Disk.absent) (pre ++ [Event.timerFired, Event.doneSignal]) =
      StepOutcome.exited 0
        { results := [], disk := Disk.absent, doneQueued := true,
          logLines := ["Timer reached limit.", "Finished running!"] } := by
  induction pre with
  | nil => rfl
  | cons e es ih =>
    have he : e = Event.tick := h e (List.mem_cons_self e es)
    subst he
    exact ih fun x hx => h x (List.mem_cons_of_mem Event.tick hx)

/-- Witness for C2 at a concrete run: two report ticks, then the deadline. -/
theorem c2_deadline_graceful_exit_witness :
    (∀ e ∈ [Event.tick, Event.tick], e = Event.tick) ∧
    coordRun false (initState Disk.absent)
        ([Event.tick, Event.tick] ++ [Event.timerFired, Event.doneSignal]) =
      StepOutcome.exited 0
        { results := [], disk := Disk.absent, doneQueued := true,
          logLines := ["Timer reached limit.", "Finished running!"] } :=
  ⟨by decide, c2_deadline_graceful_exit [Event.tick, Event.tick] (by decide)⟩

/-- C3: the claim says that whenever the interrupt signal is received mid-run
the process logs the termination request and exits with code 1, regardless of
in-flight Matches.  The code violates it: `signal.Notify` deposits a single
value in the buffer-1 watchdog channel, and every worker's select also
receives on that channel (line 154).  When the signal arrives while the
coordinator is inside the persist branch and a worker that just emitted a
match is back at its select, only the watchdog case is ready, so the worker
must take it, consuming the value and retiring silently; the coordinator's
watchdog case is never ready again, and the run later ends through the
deadline timer with exit code 0 and no termination log line. -/
theorem c3_signal_consumed_by_worker :
    workerSelectCan ⟨false, true, false⟩ WorkerCase.watchdog = true ∧
    workerSelectCan ⟨false, true, false⟩ WorkerCase.generate = false ∧
    workerSelectCan ⟨false, true, false⟩ WorkerCase.ctxDone = false ∧
    workerSelectCan ⟨false, true, false⟩ WorkerCase.timerFired = false ∧
    workerConsumesSignal ⟨false, true, false⟩ = ⟨false, false, false⟩ ∧
    coordWatchdogReady ⟨false, false, false⟩ = false ∧
    coordRun false
        { results := [⟨"GABC", "SXYZ"⟩], disk := Disk.stored [⟨"GABC", "SXYZ"⟩],
          doneQueued := false, logLines := [] }
        [Event.timerFired, Event.doneSignal] =
      StepOutcome.exited 0
        { results := [⟨"GABC", "SXYZ"⟩], disk := Disk.stored [⟨"GABC", "SXYZ"⟩],
          doneQueued := true,
          logLines := ["Timer reached limit.", "Finished running!"] } :=
  ⟨rfl, rfl, rfl, rfl, rfl, rfl, rfl⟩

/-- C4: the claim says exactly `cores` workers are spawned.  The loop
`for i := 0; i <= cores; i++` runs `cores + 1` times: with `-cores 1` two
workers start, and in general `cores + 1` do. -/
theorem c4_spawn_count :
    spawnedWorkers 1 = 2 ∧ ∀ cores : Nat, spawnedWorkers cores = cores + 1 := by
  have h : ∀ cores : Nat, spawnedWorkers cores = cores + 1 := by
    intro cores
    unfold spawnedWorkers
    rw [spawnLoop_eq]
    omega
  exact ⟨h 1, h⟩

/-- C5: the claim says a default output path is rewritten to `find + ".json"`.
In the code, `"./"` is first prepended (the prefix test at line 115 is true
for every string), so the comparison with `defaultOutputPath` always fails
and the query-derived branch is dead: for every query the resolved path is
`"./default.json"`, not `"stellar.json"`. -/
theorem c5_default_output_path :
    (∀ find : String, resolveOutputPath defaultOutputPath find = "./default.json") ∧
    "./default.json" ≠ "stellar.json" :=
  ⟨fun _ => rfl, by decide⟩

/-- C6: a query holding any rune that is neither a letter nor a number makes
startup fail fatally before the worker-spawning loop runs, while a query of
letters and digits only passes validation and the run proceeds to spawning. -/
theorem c6_alphanumeric_validation (find : String) (cores : Nat) :
    ((∃ c ∈ find.data, c.isAlpha = false ∧ c.isDigit = false) →
      startup find cores = StartupOutcome.fatal) ∧
    ((∀ c ∈ find.data, c.isAlpha = true ∨ c.isDigit = true) →
      startup find cores = StartupOutcome.started (spawnedWorkers cores)) := by
  constructor
  · rintro ⟨c, hc, h1, h2⟩
    have hfalse : isAlphanumeric find = false := by
      unfold isAlphanumeric
      rw [List.all_eq_false]
      exact ⟨c, hc, by rw [h1, h2]; decide⟩
    simp [startup, hfalse]
  · intro h
    have htrue : isAlphanumeric find = true := by
      unfold isAlphanumeric
      rw [List.all_eq_true]
      intro c hc
      rcases h c hc with h1 | h1 <;> simp [h1]
    simp [startup, htrue]

/-- Witness for C6: the query with a bang is rejected, the alphanumeric one
is accepted. -/
theorem c6_alphanumeric_validation_witness :
    ((∃ c ∈ ("ab!" : String).data, c.isAlpha = false ∧ c.isDigit = false) ∧
      startup "ab!" 2 = StartupOutcome.fatal) ∧
    ((∀ c ∈ ("ab1" : String).data, c.isAlpha = true ∨ c.isDigit = true) ∧
      startup "ab1" 2 = StartupOutcome.started (spawnedWorkers 2)) :=
  ⟨⟨by decide, (c6_alphanumeric_validation "ab!" 2).1 (by decide)⟩,
   ⟨by decide, (c6_alphanumeric_validation "ab1" 2).2 (by decide)⟩⟩

/-- C7: with `-quiet` set, the rejection path of the generate loop skips the
counter bump, so after any number of worker iterations the scan counter still
holds 0. -/
theorem c7_quiet_counter_zero (find : String) (cands : List Candidate) :
    (workerRun true find cands 0).2.1 = 0 := by
  unfold workerRun
  exact foldl_quiet_counter find cands (Phase.discard, 0, [])

/-- C8: the worker's match test succeeds exactly when the uppercase-normalized
comparison finds the query in the address (for the addresses the keypair
collaborator produces, which are their own uppercase), and on success a
`result` carrying that address and seed is emitted while the worker returns to
the top of its outer loop rather than retiring. -/
theorem c8_match_emits_and_continues (quiet : Bool) (find : String)
    (c : Candidate) (n : Nat) (ms : List result)
    (h : strToUpper c.address = c.address) :
    matchTest c.address find = strContains (strToUpper c.address) (strToUpper find) ∧
    (matchTest c.address find = true →
      workerStep quiet find (Phase.testing, n, ms) c =
        (Phase.discard, n, ms ++ [⟨c.address, c.seed⟩])) := by
  constructor
  · rw [h]
    rfl
  · intro hm
    simp [workerStep, hm]

/-- Witness for C8: a candidate whose address contains the uppercased query
is emitted and the worker keeps looping. -/
theorem c8_match_emits_and_continues_witness :
    strToUpper "GABC" = "GABC" ∧
    matchTest "GABC" "ab" = strContains (strToUpper "GABC") (strToUpper "ab") ∧
    workerStep false "ab" (Phase.testing, 0, []) ⟨"GABC", "S3"⟩ =
      (Phase.discard, 0, [⟨"GABC", "S3"⟩]) :=
  ⟨by decide,
   (c8_match_emits_and_continues false "ab" ⟨"GABC", "S3"⟩ 0 [] (by decide)).1,
   (c8_match_emits_and_continues false "ab" ⟨"GABC", "S3"⟩ 0 [] (by decide)).2 (by decide)⟩

/-- C9: during persist a nonexistent output file is tolerated as an empty
snapshot (`O_CREATE` creates it and the write proceeds), while an existing
file that is permission-unreadable or holds malformed JSON is fatal.  The
unreadable file does fail `os.ReadFile`, which only skips the merge, but the
`O_CREATE|O_RDWR` reopen at line 267 then fails with the same permission
error and `log.Fatal(openErr)` exits non-zero — so the file is never silently
replaced by the merged snapshot; malformed JSON hits `log.Fatal` at the
unmarshal (line 247). -/
theorem c9_persist_error_policy (results : List result) (m : result) :
    handleMatch results Disk.absent m = Except.ok (results ++ [m]) ∧
    handleMatch results Disk.unreadable m = Except.error () ∧
    handleMatch results Disk.malformed m = Except.error () :=
  ⟨rfl, rfl, rfl⟩

/-- C10: the empty query passes the alphanumeric validation vacuously, and
since every address contains the empty substring, every tested candidate
matches: the worker's test branch always takes the emit path. -/
theorem c10_empty_query (a : String) (c : Candidate) (quiet : Bool) (n : Nat)
    (ms : List result) :
    isAlphanumeric "" = true ∧
    matchTest a "" = true ∧
    workerStep quiet "" (Phase.testing, n, ms) c =
      (Phase.discard, n, ms ++ [⟨c.address, c.seed⟩]) := by
  have hm : ∀ s : String, matchTest s "" = true := by
    intro s
    unfold matchTest
    have h : strToUpper "" = "" := rfl
    rw [h]
    exact strContains_empty s
  refine ⟨rfl, hm a, ?_⟩
  simp [workerStep, hm c.address]

end XlmVanity
